import Mathlib

/-!
# Public lighthouse beacon: a shallow embedding of `public_lighthouse_beacon.cpp`

The server keeps one status snapshot (`BeaconData`, guarded by `beacon_mutex`) and
one registry of listener sockets (`connected_listeners`, guarded by
`listeners_mutex`).  Three workers run one loop each:

* `connectionHandler` accepts a socket, registers it and sends a welcome text;
* `fastpingMonitor` probes an HTTP endpoint and rewrites the snapshot;
* `beaconBroadcaster` encodes the snapshot and sends it to every registered
  socket, closing and erasing the sockets whose `send` returns `<= 0`.

Every loop body is embedded as a function from the values the environment hands
to it (return values of `socket`, `bind`, `listen`, `accept`, `send`,
`curl_easy_init`, `curl_easy_perform`, the clock) to the new state together with
the list of actions the body performs, in program order.

Conventions: `std::string` is `String` (its `length()` is the UTF-8 byte count),
`uint64_t` is `Nat` reduced modulo `2^64`, `int` is `Int` wrapped to 32 bits where
a conversion can overflow, `double` values are rationals and their stream
rendering is a parameter `fmt`.
-/

namespace Lighthouse

/-! ## Data model -/

/-- The two mutexes of `PublicLighthouseBeacon`. -/
inductive Mutex where
  | listeners_mutex
  | beacon_mutex
  deriving DecidableEq, Repr

/-- The three detached worker threads started by `start`. -/
inductive Worker where
  | connectionHandler
  | fastpingMonitor
  | beaconBroadcaster
  deriving DecidableEq, Repr

/-- The `flags` argument of `send` as used in the source. -/
inductive SendFlags where
  | zero
  | MSG_NOSIGNAL
  deriving DecidableEq, Repr

/-- Actions performed by the program, in the order the source performs them. -/
inductive Event where
  | lock (m : Mutex)
  | unlock (m : Mutex)
  | sysSocket (ret : Int)
  | sysSetsockopt
  | sysBind (port : Int) (ret : Int)
  | sysListen (backlog : Nat) (ret : Int)
  | spawn (w : Worker)
  | sysAccept (ret : Int)
  | registryPush (sock : Int)
  | registryRead
  | registryErase (sock : Int)
  | send (sock : Int) (buf : String) (len : Nat) (flags : SendFlags) (ret : Int)
  | close (sock : Int)
  | beaconRead
  | beaconWrite
  | clockRead
  | curlInit (ok : Bool)
  | curlPerform (res : Nat)
  | curlCleanup
  | cout (text : String)
  | cerr (text : String)
  | sleepSeconds (n : Nat)
  | stdinGet
  deriving DecidableEq, Repr

/-- The struct `BeaconData` with its default member initialisers. -/
structure BeaconData where
  lighthouse_id : String := "public-lighthouse-001"
  status : String := "healthy"
  fastping_status : String := "unknown"
  timestamp : Nat := 0
  ping_latency : ℚ := 0
  signal_age : Int := 0
  connected_listeners : Int := 0
  deriving DecidableEq

/-- The value of `current_beacon` when the object is constructed. -/
def initialBeacon : BeaconData := {}

/-- The libcurl result code `CURLE_OK`. -/
def CURLE_OK : Nat := 0

/-- The member `beacon_port{9876}`. -/
def beacon_port : Int := 9876

/-- Conversion of a signed 64-bit count to `uint64_t`. -/
def toUInt64 (x : Int) : Nat := (x % 2 ^ 64).toNat

/-- Conversion of a `size_t` to `int` (two's complement wrap to 32 bits). -/
def toInt32 (n : Nat) : Int := ((n : Int) + 2 ^ 31) % 2 ^ 32 - 2 ^ 31

/-- Stream rendering of a `uint64_t`: decimal digits. -/
def fmtUInt (n : Nat) : String := String.mk (Nat.toDigits 10 n)

/-- Stream rendering of an `int`: decimal digits with a leading minus sign if negative. -/
def fmtInt (i : Int) : String :=
  if i < 0 then "-" ++ fmtUInt i.natAbs else fmtUInt i.natAbs

/-! ## Payload encoder -/

/-- The function `createBeaconJson`: the `ostringstream` is the accumulated string,
every `<<` appends.  `fmt` is the stream rendering of a `double`. -/
def createBeaconJson (fmt : ℚ → String) (beacon : BeaconData) : String :=
  let json := ""
  let json := json ++ "\x7b\n"
  let json := json ++ "  \"lighthouse_id\": \"" ++ beacon.lighthouse_id ++ "\",\n"
  let json := json ++ "  \"timestamp\": " ++ fmtUInt beacon.timestamp ++ ",\n"
  let json := json ++ "  \"status\": \"" ++ beacon.status ++ "\",\n"
  let json := json ++ "  \"fastping_status\": \"" ++ beacon.fastping_status ++ "\",\n"
  let json := json ++ "  \"ping_latency_ms\": " ++ fmt beacon.ping_latency ++ ",\n"
  let json := json ++ "  \"signal_age_seconds\": " ++ fmtInt beacon.signal_age ++ ",\n"
  let json := json ++ "  \"connected_listeners\": " ++ fmtInt beacon.connected_listeners ++ ",\n"
  let json := json ++ "  \"lighthouse_type\": \"PUBLIC_INTERNET_BEACON\"\n"
  let json := json ++ "\x7d\n\n"
  json

/-! ## Health monitor -/

/-- One iteration of the `while (running)` loop of `fastpingMonitor`.
`curl` is `none` when `curl_easy_init` returns a null handle and `some res` when it
returns a handle and `curl_easy_perform` returns `res`; `now` is the clock's count
of seconds since the epoch read at line 138; `registry` is `connected_listeners`
as it is when line 140 reads its size. -/
def fastpingMonitorCycle (curl : Option Nat) (now : Int) (registry : List Int)
    (current_beacon : BeaconData) : BeaconData × List Event :=
  match curl with
  | none => (current_beacon, [Event.curlInit false, Event.sleepSeconds 10])
  | some res =>
    let probed : BeaconData :=
      if res = CURLE_OK then
        { current_beacon with
            fastping_status := "ok", status := "healthy", ping_latency := 15.5 }
      else
        { current_beacon with fastping_status := "failed", status := "warning" }
    let updated : BeaconData :=
      { probed with
          timestamp := toUInt64 now, connected_listeners := toInt32 registry.length }
    (updated,
      [Event.curlInit true, Event.curlPerform res, Event.lock Mutex.beacon_mutex,
       Event.beaconWrite, Event.clockRead, Event.beaconWrite, Event.registryRead,
       Event.beaconWrite, Event.curlCleanup, Event.unlock Mutex.beacon_mutex,
       Event.sleepSeconds 10])

/-! ## Broadcast scheduler -/

/-- The inner `while (it != connected_listeners.end())` loop of `beaconBroadcaster`.
The iterator is the index `it` into the vector; `erase(it)` removes the element at
that index and leaves the iterator on the element that followed it.
`sendResult sock` is the value `send` returns for `sock` in this cycle.  Each pass
performs the test `it != end()`, the read `*it` and the `send`; on `sent <= 0` it
also logs, closes the socket and erases it. -/
def broadcastLoop (sendResult : Int → Int) (beacon_json : String)
    (connected_listeners : List Int) (it : Nat) : List Int × List Event :=
  if h : it < connected_listeners.length then
    let client_socket := connected_listeners[it]
    let sent := sendResult client_socket
    let attempt :=
      [Event.registryRead, Event.registryRead,
       Event.send client_socket beacon_json beacon_json.utf8ByteSize
         SendFlags.MSG_NOSIGNAL sent]
    if sent ≤ 0 then
      let rest := broadcastLoop sendResult beacon_json (connected_listeners.eraseIdx it) it
      (rest.1,
        attempt ++ [Event.cout "📡 Listener disconnected\n", Event.close client_socket,
          Event.registryErase client_socket] ++ rest.2)
    else
      let rest := broadcastLoop sendResult beacon_json connected_listeners (it + 1)
      (rest.1, attempt ++ rest.2)
  else
    (connected_listeners, [Event.registryRead])
termination_by connected_listeners.length - it
decreasing_by
  all_goals simp_wf
  · rw [List.length_eraseIdx]
    split <;> omega
  · omega

/-- The log step that closes the locked block of `beaconBroadcaster`:
`if (!connected_listeners.empty())` print the size. -/
def report (connected_listeners : List Int) : List Event :=
  if connected_listeners ≠ [] then
    [Event.registryRead, Event.registryRead,
     Event.cout ("📡 Broadcasted to " ++ fmtUInt connected_listeners.length ++ " listeners\n")]
  else
    [Event.registryRead]

/-- One iteration of the `while (running)` loop of `beaconBroadcaster`: returns the
registry as the cycle leaves it and the actions of the cycle. -/
def beaconBroadcasterCycle (fmt : ℚ → String) (sendResult : Int → Int)
    (current_beacon : BeaconData) (connected_listeners : List Int) :
    List Int × List Event :=
  let beacon_json := createBeaconJson fmt current_beacon
  let walked := broadcastLoop sendResult beacon_json connected_listeners 0
  (walked.1,
    [Event.lock Mutex.beacon_mutex, Event.beaconRead, Event.unlock Mutex.beacon_mutex,
     Event.lock Mutex.listeners_mutex, Event.registryRead]
    ++ walked.2 ++ report walked.1
    ++ [Event.unlock Mutex.listeners_mutex, Event.sleepSeconds 5])

/-! ## Acceptor -/

/-- One iteration of the `while (running)` loop of `connectionHandler`.
`acceptRet` is the value `accept` returns, `client_ip` the text `inet_ntop` writes,
`welcomeRet` the value the welcome `send` returns (the source drops it). -/
def connectionHandlerCycle (acceptRet : Int) (client_ip : String) (welcomeRet : Int)
    (connected_listeners : List Int) : List Int × List Event :=
  let client_socket := acceptRet
  if 0 ≤ client_socket then
    let welcome := "🏰 Welcome to PUBLIC LIGHTHOUSE BEACON!\n"
    let welcome := welcome ++ "📡 You are now receiving live lighthouse data\n\n"
    (connected_listeners ++ [client_socket],
      [Event.sysAccept acceptRet,
       Event.cout ("🌍 NEW LISTENER CONNECTED: " ++ client_ip ++ "\n"),
       Event.lock Mutex.listeners_mutex, Event.registryPush client_socket,
       Event.unlock Mutex.listeners_mutex,
       Event.send client_socket welcome welcome.utf8ByteSize SendFlags.zero welcomeRet])
  else
    (connected_listeners, [Event.sysAccept acceptRet])

/-! ## Startup -/

/-- The method `start`: `socketRet`, `bindRet` and `listenRet` are the values the
calls `socket`, `bind` and `listen` return when they are reached. -/
def start (socketRet bindRet listenRet : Int) : Bool × List Event :=
  let server_socket := socketRet
  if server_socket < 0 then
    (false, [Event.sysSocket socketRet, Event.cerr "❌ Failed to create socket\n"])
  else if bindRet < 0 then
    (false,
      [Event.sysSocket socketRet, Event.sysSetsockopt, Event.sysBind beacon_port bindRet,
       Event.cerr ("❌ Failed to bind to port " ++ fmtInt beacon_port ++ "\n")])
  else if listenRet < 0 then
    (false,
      [Event.sysSocket socketRet, Event.sysSetsockopt, Event.sysBind beacon_port bindRet,
       Event.sysListen 50 listenRet, Event.cerr "❌ Failed to listen\n"])
  else
    (true,
      [Event.sysSocket socketRet, Event.sysSetsockopt, Event.sysBind beacon_port bindRet,
       Event.sysListen 50 listenRet,
       Event.cout "🚀 PUBLIC LIGHTHOUSE OPERATIONAL!\n",
       Event.cout ("🌍 Listening on port " ++ fmtInt beacon_port ++ " for GLOBAL connections\n"),
       Event.cout "📡 Broadcasting lighthouse data to ALL connected listeners\n\n",
       Event.spawn Worker.connectionHandler, Event.spawn Worker.fastpingMonitor,
       Event.spawn Worker.beaconBroadcaster])

/-- The banner printed by the constructor `PublicLighthouseBeacon()`. -/
def constructorBanner : List Event :=
  [Event.cout "🌍 PUBLIC LIGHTHOUSE BEACON SYSTEM 🌍\n",
   Event.cout "=====================================\n",
   Event.cout "🏰 Broadcasting to the ENTIRE INTERNET!\n",
   Event.cout "📡 Anyone can connect to: YOUR_SERVER:9876\n\n"]

/-- The function `main` of the server: its exit code and its actions. -/
def main (socketRet bindRet listenRet : Int) : Int × List Event :=
  let started := start socketRet bindRet listenRet
  if !started.1 then
    (1, constructorBanner ++ started.2
          ++ [Event.cerr "❌ Failed to start public lighthouse\n"])
  else
    (0, constructorBanner ++ started.2
          ++ [Event.cout "🏰 PUBLIC LIGHTHOUSE IS BROADCASTING TO THE WORLD!\n",
              Event.cout "🌍 Anyone can connect with: nc YOUR_SERVER_IP 9876\n",
              Event.cout "Press Enter to stop...\n",
              Event.stdinGet])

/-- Successive iterations of `fastpingMonitor`, each with its own probe outcome,
clock reading and registry; the snapshot after the last one. -/
def runMonitor (cycles : List (Option Nat × Int × List Int)) (beacon : BeaconData) :
    BeaconData :=
  cycles.foldl (fun cur c => (fastpingMonitorCycle c.1 c.2.1 c.2.2 cur).1) beacon

/-! ## Observations on a list of actions -/

/-- The `send` calls of a trace, in order: socket, buffer, length argument, return value. -/
def sendCalls (trace : List Event) : List (Int × String × Nat × Int) :=
  trace.filterMap fun e =>
    match e with
    | Event.send sock buf len _ ret => some (sock, buf, len, ret)
    | _ => none

/-- The sockets written to by a trace, one entry per `send` call, in order. -/
def sendTargets (trace : List Event) : List Int :=
  (sendCalls trace).map fun c => c.1

/-- The sockets closed by a trace, one entry per `close` call, in order. -/
def closedSockets (trace : List Event) : List Int :=
  trace.filterMap fun e =>
    match e with
    | Event.close sock => some sock
    | _ => none

/-- The sockets erased from the registry by a trace, in order. -/
def erasedSockets (trace : List Event) : List Int :=
  trace.filterMap fun e =>
    match e with
    | Event.registryErase sock => some sock
    | _ => none

/-- The text written to standard output by a trace, in order. -/
def coutLines (trace : List Event) : List String :=
  trace.filterMap fun e =>
    match e with
    | Event.cout text => some text
    | _ => none

/-- The actions of one pass of the broadcast loop on the socket `client_socket`,
as a function of the outcome of its `send`: used to describe the trace of the loop. -/
def visit (sendResult : Int → Int) (beacon_json : String) (client_socket : Int) :
    List Event :=
  if sendResult client_socket ≤ 0 then
    [Event.registryRead, Event.registryRead,
     Event.send client_socket beacon_json beacon_json.utf8ByteSize
       SendFlags.MSG_NOSIGNAL (sendResult client_socket),
     Event.cout "📡 Listener disconnected\n", Event.close client_socket,
     Event.registryErase client_socket]
  else
    [Event.registryRead, Event.registryRead,
     Event.send client_socket beacon_json beacon_json.utf8ByteSize
       SendFlags.MSG_NOSIGNAL (sendResult client_socket)]

/-- The worker threads started by a trace, in order. -/
def spawned (trace : List Event) : List Worker :=
  trace.filterMap fun e =>
    match e with
    | Event.spawn w => some w
    | _ => none

/-- The number of `bind` calls in a trace. -/
def bindCalls (trace : List Event) : Nat :=
  trace.countP fun e =>
    match e with
    | Event.sysBind _ _ => true
    | _ => false

/-- The number of `listen` calls in a trace. -/
def listenCalls (trace : List Event) : Nat :=
  trace.countP fun e =>
    match e with
    | Event.sysListen _ _ => true
    | _ => false

/-- The number of `send` calls of a trace that returned a positive value. -/
def successfulDeliveries (trace : List Event) : Nat :=
  (sendCalls trace).countP fun c => decide (0 < c.2.2.2)

/-- The number of `send` calls of a trace that returned zero or a negative value. -/
def failedDeliveries (trace : List Event) : Nat :=
  (sendCalls trace).countP fun c => decide (c.2.2.2 ≤ 0)

/-- The bytes of a `std::string`: the UTF-8 encoding of the text. -/
def bytesOf (s : String) : List UInt8 :=
  s.data.flatMap String.utf8EncodeChar

/-- The bytes a `send` call hands to the peer: `send(sock, buf, len, flags)` returning
`ret > 0` has transmitted the first `ret` of the `len` bytes at `buf`; a return value
`<= 0` transmits nothing. -/
def delivered (call : Int × String × Nat × Int) : List UInt8 :=
  ((bytesOf call.2.1).take call.2.2.1).take call.2.2.2.toNat

/-- The byte blocks a trace delivers to the socket `sock`, one per `send` call on it. -/
def deliveredTo (trace : List Event) (sock : Int) : List (List UInt8) :=
  ((sendCalls trace).filter fun c => decide (c.1 = sock)).map delivered

/-- No quote, no backslash, no control character. -/
def plainChar (c : Char) : Bool :=
  c.toNat != 34 && c.toNat != 92 && decide (32 ≤ c.toNat) && c.toNat != 127

/-- The string-valued members of a snapshot and the constant type tag: the texts
`createBeaconJson` writes between quotes. -/
def emittedStrings (beacon : BeaconData) : List String :=
  [beacon.lighthouse_id, beacon.status, beacon.fastping_status, "PUBLIC_INTERNET_BEACON"]

/-- The block layout in the specification's words: the line of the opening brace,
one line per field of the form two blanks, quoted key, colon, blank, value, the
lines separated by commas, then the line of the closing brace and an empty line. -/
def schemaBlock (fields : List (String × String)) : String :=
  "\x7b\n"
    ++ ",\n".intercalate (fields.map fun kv => "  \"" ++ kv.1 ++ "\": " ++ kv.2)
    ++ "\n\x7d\n\n"

/-- A string value as it appears in the block: between double quotes, unescaped. -/
def quoted (s : String) : String := "\"" ++ s ++ "\""

/-- The decimal numeral of a natural number, stated without the stream helpers:
the base-ten digits of `n`, most significant first, and the single digit `0`
for zero. -/
def decimalNat (n : Nat) : String :=
  String.mk (if n = 0 then ['0'] else (Nat.digits 10 n).reverse.map Nat.digitChar)

/-- The decimal numeral of an integer, stated without the stream helpers: the
numeral of the magnitude, preceded by a minus sign when the integer is negative. -/
def decimalInt (i : Int) : String :=
  match i with
  | Int.ofNat n => decimalNat n
  | Int.negSucc n => "-" ++ decimalNat (n + 1)

/-- The eight fields of the status block in the specification's order, each with
its rendered value. -/
def beaconFields (fmt : ℚ → String) (beacon : BeaconData) : List (String × String) :=
  [("lighthouse_id", quoted beacon.lighthouse_id),
   ("timestamp", decimalNat beacon.timestamp),
   ("status", quoted beacon.status),
   ("fastping_status", quoted beacon.fastping_status),
   ("ping_latency_ms", fmt beacon.ping_latency),
   ("signal_age_seconds", decimalInt beacon.signal_age),
   ("connected_listeners", decimalInt beacon.connected_listeners),
   ("lighthouse_type", quoted "PUBLIC_INTERNET_BEACON")]

/-- The exclusive-access discipline, checked along the actions of one thread:
`held` tells whether the thread holds `listeners_mutex`, `registered` lists the
sockets the thread knows to be in the registry.  Every access to the registry and
every `send` on a registered socket must happen while the mutex is held. -/
def guardedFrom (held : Bool) (registered : List Int) : List Event → Bool
  | [] => true
  | Event.lock Mutex.listeners_mutex :: rest => guardedFrom true registered rest
  | Event.unlock Mutex.listeners_mutex :: rest => guardedFrom false registered rest
  | Event.registryPush sock :: rest => held && guardedFrom held (sock :: registered) rest
  | Event.registryRead :: rest => held && guardedFrom held registered rest
  | Event.registryErase sock :: rest =>
      held && guardedFrom held (registered.filter fun r => decide (r ≠ sock)) rest
  | Event.send sock _ _ _ _ :: rest =>
      (held || !registered.contains sock) && guardedFrom held registered rest
  | _ :: rest => guardedFrom held registered rest

/-- The discipline for one loop iteration of a worker that starts without the mutex,
`registered` being the registry at that time. -/
def guarded (registered : List Int) (trace : List Event) : Bool :=
  guardedFrom false registered trace

/-- The discipline restricted to the registry itself: the `send` calls of the trace
are left out of the check, every access to the registry is kept. -/
def registryGuarded (registered : List Int) (trace : List Event) : Bool :=
  guarded registered
    (trace.filter fun e =>
      match e with
      | Event.send _ _ _ _ _ => false
      | _ => true)

/-- The closed enumeration of the status store: the three reachable pairs of
`status` and `fastping_status`, the reserved zero `signal_age` and the fixed identifier. -/
def inEnumeration (beacon : BeaconData) : Prop :=
  ((beacon.status = "healthy" ∧ beacon.fastping_status = "unknown")
    ∨ (beacon.status = "healthy" ∧ beacon.fastping_status = "ok")
    ∨ (beacon.status = "warning" ∧ beacon.fastping_status = "failed"))
  ∧ beacon.signal_age = 0
  ∧ beacon.lighthouse_id = "public-lighthouse-001"

instance (beacon : BeaconData) : Decidable (inEnumeration beacon) := by
  unfold inEnumeration
  infer_instance

/-! ## Lemmas on the broadcast loop -/

theorem broadcastLoop_split (sendResult : Int → Int) (beacon_json : String) :
    ∀ (rest done : List Int),
      broadcastLoop sendResult beacon_json (done ++ rest) done.length
        = (done ++ rest.filter (fun h => decide (0 < sendResult h)),
           rest.flatMap (visit sendResult beacon_json) ++ [Event.registryRead]) := by
  intro rest
  induction rest with
  | nil =>
    intro done
    rw [broadcastLoop]
    simp
  | cons h t ih =>
    intro done
    rw [broadcastLoop]
    have hlt : done.length < (done ++ h :: t).length := by simp
    have hget : (done ++ h :: t)[done.length] = h := by
      rw [List.getElem_append_right (le_refl _)]
      simp
    simp only [hlt, dite_true, hget]
    by_cases hs : sendResult h ≤ 0
    · have herase : (done ++ h :: t).eraseIdx done.length = done ++ t := by
        rw [List.eraseIdx_append_of_length_le (le_refl _)]
        simp
      have hno : ¬ 0 < sendResult h := not_lt.mpr hs
      simp [hs, herase, ih done, hno, visit]
    · have hyes : 0 < sendResult h := not_le.mp hs
      have hshift : done ++ h :: t = (done ++ [h]) ++ t := by simp
      have hlen : done.length + 1 = (done ++ [h]).length := by simp
      simp only [hs, if_false]
      rw [hshift, hlen, ih (done ++ [h])]
      simp [hyes, hs, visit]

theorem filterMap_flatMap_eq {α β γ : Type} (g : β → Option γ) (v : α → List β) :
    ∀ l : List α, (l.flatMap v).filterMap g = l.flatMap (fun a => (v a).filterMap g) := by
  intro l
  induction l with
  | nil => simp
  | cons a t ih => simp [List.flatMap_cons, List.filterMap_append, ih]

theorem flatMap_ite_singleton {α : Type} (p : α → Prop) [DecidablePred p] :
    ∀ l : List α, l.flatMap (fun a => if p a then [a] else []) = l.filter (fun a => decide (p a)) := by
  intro l
  induction l with
  | nil => simp
  | cons a t ih =>
    by_cases h : p a <;> simp [List.flatMap_cons, List.filter_cons, h, ih]

theorem flatMap_singleton_map {α β : Type} (f : α → β) :
    ∀ l : List α, l.flatMap (fun a => [f a]) = l.map f := by
  intro l
  induction l with
  | nil => simp
  | cons a t ih => simp [List.flatMap_cons, ih]

theorem beaconBroadcasterCycle_registry (fmt : ℚ → String) (sendResult : Int → Int)
    (beacon : BeaconData) (reg : List Int) :
    (beaconBroadcasterCycle fmt sendResult beacon reg).1
      = reg.filter (fun h => decide (0 < sendResult h)) := by
  have h := broadcastLoop_split sendResult (createBeaconJson fmt beacon) reg []
  simp only [List.nil_append, List.length_nil] at h
  simp [beaconBroadcasterCycle, h]

theorem beaconBroadcasterCycle_trace (fmt : ℚ → String) (sendResult : Int → Int)
    (beacon : BeaconData) (reg : List Int) :
    (beaconBroadcasterCycle fmt sendResult beacon reg).2
      = [Event.lock Mutex.beacon_mutex, Event.beaconRead, Event.unlock Mutex.beacon_mutex,
         Event.lock Mutex.listeners_mutex, Event.registryRead]
        ++ (reg.flatMap (visit sendResult (createBeaconJson fmt beacon))
            ++ [Event.registryRead])
        ++ report (reg.filter (fun h => decide (0 < sendResult h)))
        ++ [Event.unlock Mutex.listeners_mutex, Event.sleepSeconds 5] := by
  have h := broadcastLoop_split sendResult (createBeaconJson fmt beacon) reg []
  simp only [List.nil_append, List.length_nil] at h
  simp [beaconBroadcasterCycle, h]

theorem sendCalls_report (l : List Int) : sendCalls (report l) = [] := by
  unfold report sendCalls
  split <;> simp

theorem closedSockets_report (l : List Int) : closedSockets (report l) = [] := by
  unfold report closedSockets
  split <;> simp

theorem erasedSockets_report (l : List Int) : erasedSockets (report l) = [] := by
  unfold report erasedSockets
  split <;> simp

theorem sendCalls_visit (sendResult : Int → Int) (json : String) (h : Int) :
    sendCalls (visit sendResult json h)
      = [(h, json, json.utf8ByteSize, sendResult h)] := by
  by_cases hs : sendResult h ≤ 0 <;> simp [visit, sendCalls, hs]

theorem closedSockets_visit (sendResult : Int → Int) (json : String) (h : Int) :
    closedSockets (visit sendResult json h) = if sendResult h ≤ 0 then [h] else [] := by
  by_cases hs : sendResult h ≤ 0 <;> simp [visit, closedSockets, hs]

theorem erasedSockets_visit (sendResult : Int → Int) (json : String) (h : Int) :
    erasedSockets (visit sendResult json h) = if sendResult h ≤ 0 then [h] else [] := by
  by_cases hs : sendResult h ≤ 0 <;> simp [visit, erasedSockets, hs]

theorem beaconBroadcasterCycle_sendCalls (fmt : ℚ → String) (sendResult : Int → Int)
    (beacon : BeaconData) (reg : List Int) :
    sendCalls (beaconBroadcasterCycle fmt sendResult beacon reg).2
      = reg.map (fun h => (h, createBeaconJson fmt beacon,
          (createBeaconJson fmt beacon).utf8ByteSize, sendResult h)) := by
  rw [beaconBroadcasterCycle_trace]
  have hv : sendCalls (reg.flatMap (visit sendResult (createBeaconJson fmt beacon)))
      = reg.flatMap (fun h => sendCalls (visit sendResult (createBeaconJson fmt beacon) h)) :=
    filterMap_flatMap_eq _ _ reg
  have hr := sendCalls_report (reg.filter (fun h => decide (0 < sendResult h)))
  unfold sendCalls at hv hr ⊢
  simp only [List.filterMap_append, hv, hr]
  have hv2 := fun h => sendCalls_visit sendResult (createBeaconJson fmt beacon) h
  unfold sendCalls at hv2
  simp only [hv2, flatMap_singleton_map]
  simp

theorem beaconBroadcasterCycle_closed (fmt : ℚ → String) (sendResult : Int → Int)
    (beacon : BeaconData) (reg : List Int) :
    closedSockets (beaconBroadcasterCycle fmt sendResult beacon reg).2
      = reg.filter (fun h => decide (sendResult h ≤ 0)) := by
  rw [beaconBroadcasterCycle_trace]
  have hv : closedSockets (reg.flatMap (visit sendResult (createBeaconJson fmt beacon)))
      = reg.flatMap (fun h => closedSockets (visit sendResult (createBeaconJson fmt beacon) h)) :=
    filterMap_flatMap_eq _ _ reg
  have hr := closedSockets_report (reg.filter (fun h => decide (0 < sendResult h)))
  have hv2 : (fun h => closedSockets (visit sendResult (createBeaconJson fmt beacon) h))
      = (fun h => if sendResult h ≤ 0 then [h] else []) :=
    funext (closedSockets_visit sendResult (createBeaconJson fmt beacon))
  rw [hv2, flatMap_ite_singleton] at hv
  unfold closedSockets at hv hr ⊢
  simp only [List.filterMap_append, hv, hr]
  simp

theorem beaconBroadcasterCycle_erased (fmt : ℚ → String) (sendResult : Int → Int)
    (beacon : BeaconData) (reg : List Int) :
    erasedSockets (beaconBroadcasterCycle fmt sendResult beacon reg).2
      = reg.filter (fun h => decide (sendResult h ≤ 0)) := by
  rw [beaconBroadcasterCycle_trace]
  have hv : erasedSockets (reg.flatMap (visit sendResult (createBeaconJson fmt beacon)))
      = reg.flatMap (fun h => erasedSockets (visit sendResult (createBeaconJson fmt beacon) h)) :=
    filterMap_flatMap_eq _ _ reg
  have hr := erasedSockets_report (reg.filter (fun h => decide (0 < sendResult h)))
  have hv2 : (fun h => erasedSockets (visit sendResult (createBeaconJson fmt beacon) h))
      = (fun h => if sendResult h ≤ 0 then [h] else []) :=
    funext (erasedSockets_visit sendResult (createBeaconJson fmt beacon))
  rw [hv2, flatMap_ite_singleton] at hv
  unfold erasedSockets at hv hr ⊢
  simp only [List.filterMap_append, hv, hr]
  simp

/-! ## Broadcast cycle: delivery or removal -/

/-- C1: one broadcast cycle, for any registry and any outcome of the write on each
handle, writes once per registry entry in registry order, ends with the registry
equal to the entries whose write returned a positive value in their original
order, closes and erases exactly the entries whose write returned `<= 0`, and
leaves every entry whose write succeeded open and registered; in a registry of
distinct handles every handle is written exactly once and every failed handle is
closed exactly once. -/
theorem beaconBroadcaster_delivers_or_removes (fmt : ℚ → String) (sendResult : Int → Int)
    (beacon : BeaconData) (reg : List Int) :
    sendTargets (beaconBroadcasterCycle fmt sendResult beacon reg).2 = reg
    ∧ (beaconBroadcasterCycle fmt sendResult beacon reg).1
        = reg.filter (fun h => decide (0 < sendResult h))
    ∧ closedSockets (beaconBroadcasterCycle fmt sendResult beacon reg).2
        = reg.filter (fun h => decide (sendResult h ≤ 0))
    ∧ erasedSockets (beaconBroadcasterCycle fmt sendResult beacon reg).2
        = closedSockets (beaconBroadcasterCycle fmt sendResult beacon reg).2
    ∧ (∀ h ∈ reg, sendResult h ≤ 0 →
        h ∉ (beaconBroadcasterCycle fmt sendResult beacon reg).1
        ∧ (closedSockets (beaconBroadcasterCycle fmt sendResult beacon reg).2).count h
            = reg.count h)
    ∧ (∀ h ∈ reg, 0 < sendResult h →
        h ∉ closedSockets (beaconBroadcasterCycle fmt sendResult beacon reg).2
        ∧ h ∉ erasedSockets (beaconBroadcasterCycle fmt sendResult beacon reg).2
        ∧ (beaconBroadcasterCycle fmt sendResult beacon reg).1.count h = reg.count h)
    ∧ (reg.Nodup → ∀ h ∈ reg,
        (sendTargets (beaconBroadcasterCycle fmt sendResult beacon reg).2).count h = 1
        ∧ (sendResult h ≤ 0 →
            (closedSockets (beaconBroadcasterCycle fmt sendResult beacon reg).2).count h = 1)
        ∧ (0 < sendResult h →
            (beaconBroadcasterCycle fmt sendResult beacon reg).1.count h = 1)) := by
  have hsend : sendTargets (beaconBroadcasterCycle fmt sendResult beacon reg).2 = reg := by
    unfold sendTargets
    rw [beaconBroadcasterCycle_sendCalls]
    simp [Function.comp_def]
  have hreg := beaconBroadcasterCycle_registry fmt sendResult beacon reg
  have hclo := beaconBroadcasterCycle_closed fmt sendResult beacon reg
  have hera := beaconBroadcasterCycle_erased fmt sendResult beacon reg
  refine ⟨hsend, hreg, hclo, by rw [hera, hclo], ?_, ?_, ?_⟩
  · intro h _ hfail
    have hno : ¬ 0 < sendResult h := not_lt.mpr hfail
    rw [hreg, hclo]
    refine ⟨by simp [List.mem_filter, hno], ?_⟩
    rw [List.count_filter]
    simpa using hfail
  · intro h _ hok
    have hno : ¬ sendResult h ≤ 0 := not_le.mpr hok
    rw [hera, hclo, hreg]
    refine ⟨by simp [List.mem_filter, hno], by simp [List.mem_filter, hno], ?_⟩
    rw [List.count_filter]
    simpa using hok
  · intro hnd h hmem
    have hone : reg.count h = 1 := List.count_eq_one_of_mem hnd hmem
    refine ⟨by rw [hsend, hone], ?_, ?_⟩
    · intro hfail
      rw [hclo, List.count_filter, hone]
      simpa using hfail
    · intro hok
      rw [hreg, List.count_filter, hone]
      simpa using hok

/-- Witness for C1: registry `[3, 4, 5]` where the write on `4` returns `-1` and the
writes on `3` and `5` return `7`. -/
theorem beaconBroadcaster_delivers_or_removes_witness :
    (4 ∉ (beaconBroadcasterCycle (fun _ => "0") (fun h => if h = 4 then -1 else 7)
            initialBeacon [3, 4, 5]).1
      ∧ (closedSockets (beaconBroadcasterCycle (fun _ => "0")
            (fun h => if h = 4 then -1 else 7) initialBeacon [3, 4, 5]).2).count 4
          = [3, 4, 5].count 4)
    ∧ (3 ∉ closedSockets (beaconBroadcasterCycle (fun _ => "0")
            (fun h => if h = 4 then -1 else 7) initialBeacon [3, 4, 5]).2
      ∧ 3 ∉ erasedSockets (beaconBroadcasterCycle (fun _ => "0")
            (fun h => if h = 4 then -1 else 7) initialBeacon [3, 4, 5]).2
      ∧ (beaconBroadcasterCycle (fun _ => "0") (fun h => if h = 4 then -1 else 7)
            initialBeacon [3, 4, 5]).1.count 3 = [3, 4, 5].count 3)
    ∧ ((sendTargets (beaconBroadcasterCycle (fun _ => "0")
            (fun h => if h = 4 then -1 else 7) initialBeacon [3, 4, 5]).2).count 4 = 1
      ∧ ((fun h => if h = 4 then -1 else 7) (4 : Int) ≤ (0 : Int) →
          (closedSockets (beaconBroadcasterCycle (fun _ => "0")
            (fun h => if h = 4 then -1 else 7) initialBeacon [3, 4, 5]).2).count 4 = 1)
      ∧ ((0 : Int) < (fun h => if h = 4 then -1 else 7) (4 : Int) →
          (beaconBroadcasterCycle (fun _ => "0") (fun h => if h = 4 then -1 else 7)
            initialBeacon [3, 4, 5]).1.count 4 = 1)) :=
  ⟨(beaconBroadcaster_delivers_or_removes (fun _ => "0")
        (fun h => if h = 4 then -1 else 7) initialBeacon [3, 4, 5]).2.2.2.2.1 4
        (by decide) (by decide),
   (beaconBroadcaster_delivers_or_removes (fun _ => "0")
        (fun h => if h = 4 then -1 else 7) initialBeacon [3, 4, 5]).2.2.2.2.2.1 3
        (by decide) (by decide),
   (beaconBroadcaster_delivers_or_removes (fun _ => "0")
        (fun h => if h = 4 then -1 else 7) initialBeacon [3, 4, 5]).2.2.2.2.2.2
        (by decide) 4 (by decide)⟩

/-! ## Health monitor: what one update writes and what it leaves alone -/

theorem fastpingMonitorCycle_some (res : Nat) (now : Int) (reg : List Int)
    (cur : BeaconData) :
    (fastpingMonitorCycle (some res) now reg cur).1
      = { (if res = CURLE_OK then
            { cur with fastping_status := "ok", status := "healthy", ping_latency := 15.5 }
          else
            { cur with fastping_status := "failed", status := "warning" } : BeaconData) with
          timestamp := toUInt64 now, connected_listeners := toInt32 reg.length } := rfl

theorem fastpingMonitorCycle_none (now : Int) (reg : List Int) (cur : BeaconData) :
    (fastpingMonitorCycle none now reg cur).1 = cur := rfl

theorem toUInt64_of_nonneg (x : Int) (h0 : 0 ≤ x) (h1 : x < 2 ^ 64) :
    (toUInt64 x : Int) = x := by
  unfold toUInt64
  rw [Int.emod_eq_of_lt h0 h1]
  exact Int.toNat_of_nonneg h0

theorem toInt32_of_lt (n : Nat) (h : n < 2 ^ 31) : toInt32 n = n := by
  unfold toInt32
  have h1 : (0 : Int) ≤ (n : Int) + 2 ^ 31 := by positivity
  have h2 : (n : Int) + 2 ^ 31 < 2 ^ 32 := by
    have : (n : Int) < 2 ^ 31 := by exact_mod_cast h
    omega
  rw [Int.emod_eq_of_lt h1 h2]
  omega

/-- C3: in one monitor cycle whose probe returns `res`, whatever the prior snapshot,
`res = CURLE_OK` gives `fastping_status = "ok"` and `status = "healthy"`, and any
other result gives `fastping_status = "failed"` and `status = "warning"`. -/
theorem fastpingMonitor_probe_outcome_mapping (res : Nat) (now : Int) (reg : List Int)
    (cur : BeaconData) :
    (res = CURLE_OK →
      (fastpingMonitorCycle (some res) now reg cur).1.fastping_status = "ok"
      ∧ (fastpingMonitorCycle (some res) now reg cur).1.status = "healthy")
    ∧ (res ≠ CURLE_OK →
      (fastpingMonitorCycle (some res) now reg cur).1.fastping_status = "failed"
      ∧ (fastpingMonitorCycle (some res) now reg cur).1.status = "warning") := by
  rw [fastpingMonitorCycle_some]
  constructor
  · intro h
    simp [h]
  · intro h
    simp [h]

/-- Witness for C3: a probe returning `CURLE_OK` (0) and a probe returning the
timeout code 28, both on the initial snapshot. -/
theorem fastpingMonitor_probe_outcome_mapping_witness :
    ((fastpingMonitorCycle (some 0) 1700000000 [4, 5] initialBeacon).1.fastping_status = "ok"
      ∧ (fastpingMonitorCycle (some 0) 1700000000 [4, 5] initialBeacon).1.status = "healthy")
    ∧ ((fastpingMonitorCycle (some 28) 1700000000 [4, 5] initialBeacon).1.fastping_status
          = "failed"
      ∧ (fastpingMonitorCycle (some 28) 1700000000 [4, 5] initialBeacon).1.status
          = "warning") :=
  ⟨(fastpingMonitor_probe_outcome_mapping 0 1700000000 [4, 5] initialBeacon).1 rfl,
   (fastpingMonitor_probe_outcome_mapping 28 1700000000 [4, 5] initialBeacon).2 (by decide)⟩

/-- C4 as stated fails: when `curl_easy_init` yields no handle the cycle leaves the
snapshot as it was; here the clock reads 1700000000 and the registry holds two
sockets, yet the snapshot still has `timestamp = 0` and `connected_listeners = 0`. -/
theorem fastpingMonitor_refresh_counterexample :
    (fastpingMonitorCycle none 1700000000 [4, 5] initialBeacon).1.timestamp = 0
    ∧ ((fastpingMonitorCycle none 1700000000 [4, 5] initialBeacon).1.timestamp : Int)
        ≠ 1700000000
    ∧ (fastpingMonitorCycle none 1700000000 [4, 5] initialBeacon).1.connected_listeners = 0
    ∧ (fastpingMonitorCycle none 1700000000 [4, 5] initialBeacon).1.connected_listeners
        ≠ (([4, 5] : List Int).length : Int) := by
  refine ⟨rfl, ?_, rfl, ?_⟩
  · rw [fastpingMonitorCycle_none]
    decide
  · rw [fastpingMonitorCycle_none]
    decide

/-- C4 amended: every monitor cycle in which `curl_easy_init` yields a handle,
whatever `curl_easy_perform` returns, leaves the snapshot with `timestamp` equal to
the clock's seconds count converted to `uint64_t` (the count itself when it is not
negative) and `connected_listeners` equal to the registry's size converted to `int`
(the size itself when it is below `2^31`); a cycle in which no handle is obtained
leaves the snapshot as it was. -/
theorem fastpingMonitor_refresh_when_probed (res : Nat) (now : Int) (reg : List Int)
    (cur : BeaconData) :
    (fastpingMonitorCycle (some res) now reg cur).1.timestamp = toUInt64 now
    ∧ (0 ≤ now → now < 2 ^ 64 →
        ((fastpingMonitorCycle (some res) now reg cur).1.timestamp : Int) = now)
    ∧ (fastpingMonitorCycle (some res) now reg cur).1.connected_listeners
        = toInt32 reg.length
    ∧ (reg.length < 2 ^ 31 →
        (fastpingMonitorCycle (some res) now reg cur).1.connected_listeners = reg.length)
    ∧ (fastpingMonitorCycle none now reg cur).1 = cur := by
  rw [fastpingMonitorCycle_some]
  refine ⟨rfl, ?_, rfl, ?_, rfl⟩
  · intro h0 h1
    exact toUInt64_of_nonneg now h0 h1
  · intro h
    exact toInt32_of_lt reg.length h

/-- Witness for C4 amended: a failed probe (result 7) at clock 1700000000 with two
registered sockets. -/
theorem fastpingMonitor_refresh_when_probed_witness :
    ((fastpingMonitorCycle (some 7) 1700000000 [4, 5] initialBeacon).1.timestamp : Int)
        = 1700000000
    ∧ (fastpingMonitorCycle (some 7) 1700000000 [4, 5] initialBeacon).1.connected_listeners
        = (([4, 5] : List Int).length : Int) :=
  ⟨(fastpingMonitor_refresh_when_probed 7 1700000000 [4, 5] initialBeacon).2.1
      (by decide) (by decide),
   (fastpingMonitor_refresh_when_probed 7 1700000000 [4, 5] initialBeacon).2.2.2.1
      (by decide)⟩

/-- C8: a monitor cycle whose probe does not return `CURLE_OK` (a failure, a timeout,
or no probe handle at all) leaves `ping_latency` as it was; every monitor cycle
leaves `lighthouse_id` and `signal_age` as they were. -/
theorem fastpingMonitor_frame (curl : Option Nat) (now : Int) (reg : List Int)
    (cur : BeaconData) :
    (curl ≠ some CURLE_OK →
      (fastpingMonitorCycle curl now reg cur).1.ping_latency = cur.ping_latency)
    ∧ (fastpingMonitorCycle curl now reg cur).1.lighthouse_id = cur.lighthouse_id
    ∧ (fastpingMonitorCycle curl now reg cur).1.signal_age = cur.signal_age := by
  cases curl with
  | none => exact ⟨fun _ => rfl, rfl, rfl⟩
  | some res =>
    rw [fastpingMonitorCycle_some]
    by_cases h : res = CURLE_OK
    · refine ⟨fun hne => absurd (congrArg some h) hne, ?_, ?_⟩ <;> simp [h]
    · refine ⟨fun _ => ?_, ?_, ?_⟩ <;> simp [h]

/-- Witness for C8: a timed-out probe (result 28) after a successful one keeps the
latency written by the successful one. -/
theorem fastpingMonitor_frame_witness :
    (fastpingMonitorCycle (some 28) 1700000010 [4]
        (fastpingMonitorCycle (some 0) 1700000000 [4] initialBeacon).1).1.ping_latency
      = (fastpingMonitorCycle (some 0) 1700000000 [4] initialBeacon).1.ping_latency :=
  (fastpingMonitor_frame (some 28) 1700000010 [4]
      (fastpingMonitorCycle (some 0) 1700000000 [4] initialBeacon).1).1 (by decide)

/-! ## Status store: closed enumeration -/

theorem inEnumeration_initial : inEnumeration initialBeacon :=
  ⟨Or.inl ⟨rfl, rfl⟩, rfl, rfl⟩

theorem inEnumeration_step (curl : Option Nat) (now : Int) (reg : List Int)
    (cur : BeaconData) (h : inEnumeration cur) :
    inEnumeration (fastpingMonitorCycle curl now reg cur).1 := by
  cases curl with
  | none => exact h
  | some res =>
    rw [fastpingMonitorCycle_some]
    obtain ⟨_, hage, hid⟩ := h
    by_cases hr : res = CURLE_OK
    · refine ⟨Or.inr (Or.inl ⟨?_, ?_⟩), ?_, ?_⟩ <;> simp [hr, hage, hid]
    · refine ⟨Or.inr (Or.inr ⟨?_, ?_⟩), ?_, ?_⟩ <;> simp [hr, hage, hid]

theorem inEnumeration_run (cycles : List (Option Nat × Int × List Int)) :
    ∀ beacon : BeaconData, inEnumeration beacon → inEnumeration (runMonitor cycles beacon) := by
  induction cycles with
  | nil => intro beacon h; exact h
  | cons c t ih =>
    intro beacon h
    exact ih _ (inEnumeration_step c.1 c.2.1 c.2.2 beacon h)

theorem emittedStrings_plain (beacon : BeaconData) (h : inEnumeration beacon) :
    (emittedStrings beacon).all (fun s => s.data.all plainChar) = true := by
  obtain ⟨hpair, _, hid⟩ := h
  unfold emittedStrings
  rw [hid]
  rcases hpair with ⟨h1, h2⟩ | ⟨h1, h2⟩ | ⟨h1, h2⟩ <;> rw [h1, h2] <;> decide

/-- C10: in the initial snapshot and after any sequence of monitor cycles with any
probe outcomes, clock readings and registries, the pair of `status` and
`fastping_status` is one of (healthy, unknown), (healthy, ok), (warning, failed),
`signal_age` is 0, `lighthouse_id` is `public-lighthouse-001`, and none of the
strings the encoder writes between quotes contains a quote, a backslash or a
control character. -/
theorem statusStore_closed_enumeration (cycles : List (Option Nat × Int × List Int)) :
    ((runMonitor cycles initialBeacon).status, (runMonitor cycles initialBeacon).fastping_status)
        ∈ [("healthy", "unknown"), ("healthy", "ok"), ("warning", "failed")]
    ∧ (runMonitor cycles initialBeacon).signal_age = 0
    ∧ (runMonitor cycles initialBeacon).lighthouse_id = "public-lighthouse-001"
    ∧ (emittedStrings (runMonitor cycles initialBeacon)).all
        (fun s => s.data.all plainChar) = true := by
  have h := inEnumeration_run cycles initialBeacon inEnumeration_initial
  refine ⟨?_, h.2.1, h.2.2, emittedStrings_plain _ h⟩
  rcases h.1 with ⟨h1, h2⟩ | ⟨h1, h2⟩ | ⟨h1, h2⟩ <;> rw [h1, h2] <;> simp

/-! ## Startup -/

/-- C7: `start` returns `true` exactly when `socket`, `bind` and `listen` all return a
non-negative value; when one of them fails `start` returns `false`, performs none
of the later calls and starts no worker thread, and `main` returns exit code 1
without any worker having been started; when all three succeed the three workers
are started. -/
theorem start_fatal_on_socket_failure (socketRet bindRet listenRet : Int) :
    ((start socketRet bindRet listenRet).1 = true
        ↔ 0 ≤ socketRet ∧ 0 ≤ bindRet ∧ 0 ≤ listenRet)
    ∧ (socketRet < 0 →
        (start socketRet bindRet listenRet).1 = false
        ∧ bindCalls (start socketRet bindRet listenRet).2 = 0
        ∧ listenCalls (start socketRet bindRet listenRet).2 = 0
        ∧ spawned (start socketRet bindRet listenRet).2 = [])
    ∧ (0 ≤ socketRet → bindRet < 0 →
        (start socketRet bindRet listenRet).1 = false
        ∧ listenCalls (start socketRet bindRet listenRet).2 = 0
        ∧ spawned (start socketRet bindRet listenRet).2 = [])
    ∧ (0 ≤ socketRet → 0 ≤ bindRet → listenRet < 0 →
        (start socketRet bindRet listenRet).1 = false
        ∧ spawned (start socketRet bindRet listenRet).2 = [])
    ∧ ((start socketRet bindRet listenRet).1 = false →
        (main socketRet bindRet listenRet).1 = 1
        ∧ spawned (main socketRet bindRet listenRet).2 = [])
    ∧ ((start socketRet bindRet listenRet).1 = true →
        (main socketRet bindRet listenRet).1 = 0
        ∧ spawned (start socketRet bindRet listenRet).2
            = [Worker.connectionHandler, Worker.fastpingMonitor, Worker.beaconBroadcaster]) := by
  by_cases hs : socketRet < 0
  · have hs2 : ¬ 0 ≤ socketRet := not_le.mpr hs
    simp [start, main, constructorBanner, spawned, bindCalls, listenCalls, hs, hs2]
  · have hs2 : 0 ≤ socketRet := not_lt.mp hs
    by_cases hb : bindRet < 0
    · have hb2 : ¬ 0 ≤ bindRet := not_le.mpr hb
      simp [start, main, constructorBanner, spawned, bindCalls, listenCalls, hs, hs2, hb, hb2]
    · have hb2 : 0 ≤ bindRet := not_lt.mp hb
      by_cases hl : listenRet < 0
      · have hl2 : ¬ 0 ≤ listenRet := not_le.mpr hl
        simp [start, main, constructorBanner, spawned, bindCalls, listenCalls, hs, hs2, hb,
          hb2, hl, hl2]
      · have hl2 : 0 ≤ listenRet := not_lt.mp hl
        simp [start, main, constructorBanner, spawned, bindCalls, listenCalls, hs, hs2, hb,
          hb2, hl, hl2]

/-- Witness for C7: `socket` fails; `socket` returns 3 and `bind` fails; `socket`
returns 3, `bind` succeeds and `listen` fails; and all three succeed. -/
theorem start_fatal_on_socket_failure_witness :
    ((start (-1) 0 0).1 = false ∧ bindCalls (start (-1) 0 0).2 = 0
        ∧ listenCalls (start (-1) 0 0).2 = 0 ∧ spawned (start (-1) 0 0).2 = [])
    ∧ ((start 3 (-1) 0).1 = false ∧ listenCalls (start 3 (-1) 0).2 = 0
        ∧ spawned (start 3 (-1) 0).2 = [])
    ∧ ((start 3 0 (-1)).1 = false ∧ spawned (start 3 0 (-1)).2 = [])
    ∧ ((main 3 0 (-1)).1 = 1 ∧ spawned (main 3 0 (-1)).2 = [])
    ∧ ((main 3 0 0).1 = 0
        ∧ spawned (start 3 0 0).2
            = [Worker.connectionHandler, Worker.fastpingMonitor, Worker.beaconBroadcaster]) :=
  ⟨(start_fatal_on_socket_failure (-1) 0 0).2.1 (by decide),
   (start_fatal_on_socket_failure 3 (-1) 0).2.2.1 (by decide) (by decide),
   (start_fatal_on_socket_failure 3 0 (-1)).2.2.2.1 (by decide) (by decide) (by decide),
   (start_fatal_on_socket_failure 3 0 (-1)).2.2.2.2.1 (by decide),
   (start_fatal_on_socket_failure 3 0 0).2.2.2.2.2 (by decide)⟩

/-! ## Broadcast cycle: the delivery log line -/

theorem flatMap_ite_replicate {α β : Type} (p : α → Prop) [DecidablePred p] (b : β) :
    ∀ l : List α, l.flatMap (fun a => if p a then [b] else [])
      = List.replicate (l.countP (fun a => decide (p a))) b := by
  intro l
  induction l with
  | nil => simp
  | cons a t ih =>
    by_cases h : p a
    · simp [List.flatMap_cons, List.countP_cons, h, ih, List.replicate_succ]
    · simp [List.flatMap_cons, List.countP_cons, h, ih]

theorem coutLines_visit (sendResult : Int → Int) (json : String) (h : Int) :
    coutLines (visit sendResult json h)
      = if sendResult h ≤ 0 then ["📡 Listener disconnected\n"] else [] := by
  by_cases hs : sendResult h ≤ 0 <;> simp [visit, coutLines, hs]

theorem coutLines_report (l : List Int) :
    coutLines (report l)
      = if l ≠ [] then ["📡 Broadcasted to " ++ fmtUInt l.length ++ " listeners\n"] else [] := by
  by_cases hl : l = [] <;> simp [report, coutLines, hl]

theorem beaconBroadcasterCycle_coutLines (fmt : ℚ → String) (sendResult : Int → Int)
    (beacon : BeaconData) (reg : List Int) :
    coutLines (beaconBroadcasterCycle fmt sendResult beacon reg).2
      = List.replicate (reg.countP (fun h => decide (sendResult h ≤ 0)))
          "📡 Listener disconnected\n"
        ++ coutLines (report (reg.filter (fun h => decide (0 < sendResult h)))) := by
  rw [beaconBroadcasterCycle_trace]
  have hv : coutLines (reg.flatMap (visit sendResult (createBeaconJson fmt beacon)))
      = reg.flatMap (fun h => coutLines (visit sendResult (createBeaconJson fmt beacon) h)) :=
    filterMap_flatMap_eq _ _ reg
  have hv2 : (fun h => coutLines (visit sendResult (createBeaconJson fmt beacon) h))
      = (fun h => if sendResult h ≤ 0 then ["📡 Listener disconnected\n"] else []) :=
    funext (coutLines_visit sendResult (createBeaconJson fmt beacon))
  rw [hv2, flatMap_ite_replicate] at hv
  unfold coutLines at hv ⊢
  simp only [List.filterMap_append, hv]
  simp

theorem beaconBroadcasterCycle_successful (fmt : ℚ → String) (sendResult : Int → Int)
    (beacon : BeaconData) (reg : List Int) :
    successfulDeliveries (beaconBroadcasterCycle fmt sendResult beacon reg).2
      = (reg.filter (fun h => decide (0 < sendResult h))).length := by
  unfold successfulDeliveries
  rw [beaconBroadcasterCycle_sendCalls, List.countP_map, List.countP_eq_length_filter]
  rfl

theorem beaconBroadcasterCycle_failed (fmt : ℚ → String) (sendResult : Int → Int)
    (beacon : BeaconData) (reg : List Int) :
    failedDeliveries (beaconBroadcasterCycle fmt sendResult beacon reg).2
      = reg.countP (fun h => decide (sendResult h ≤ 0)) := by
  unfold failedDeliveries
  rw [beaconBroadcasterCycle_sendCalls, List.countP_map]
  rfl

/-- C9 as stated fails: on an empty registry the cycle prints nothing at all, and
when the only write fails it prints the disconnect line alone; in neither cycle is
a line reporting 0 deliveries printed. -/
theorem beaconBroadcaster_log_counterexample :
    successfulDeliveries
        (beaconBroadcasterCycle (fun _ => "0") (fun _ => 1) initialBeacon []).2 = 0
    ∧ coutLines (beaconBroadcasterCycle (fun _ => "0") (fun _ => 1) initialBeacon []).2 = []
    ∧ successfulDeliveries
        (beaconBroadcasterCycle (fun _ => "0") (fun _ => -1) initialBeacon [4]).2 = 0
    ∧ coutLines (beaconBroadcasterCycle (fun _ => "0") (fun _ => -1) initialBeacon [4]).2
        = ["📡 Listener disconnected\n"]
    ∧ "📡 Broadcasted to 0 listeners\n"
        ∉ coutLines (beaconBroadcasterCycle (fun _ => "0") (fun _ => -1) initialBeacon [4]).2 := by
  rw [beaconBroadcasterCycle_successful, beaconBroadcasterCycle_successful,
    beaconBroadcasterCycle_coutLines, beaconBroadcasterCycle_coutLines]
  decide

/-- C9 amended: the number the cycle would log, the registry size after pruning,
equals the number of writes that returned a positive value; when that number K is
positive the cycle prints, after one disconnect line per failed write, exactly one
line `Broadcasted to K listeners`; when K is 0 (empty registry or every write
failed) it prints the disconnect lines only. -/
theorem beaconBroadcaster_logs_deliveries (fmt : ℚ → String) (sendResult : Int → Int)
    (beacon : BeaconData) (reg : List Int) :
    (beaconBroadcasterCycle fmt sendResult beacon reg).1.length
      = successfulDeliveries (beaconBroadcasterCycle fmt sendResult beacon reg).2
    ∧ (0 < successfulDeliveries (beaconBroadcasterCycle fmt sendResult beacon reg).2 →
        coutLines (beaconBroadcasterCycle fmt sendResult beacon reg).2
          = List.replicate
              (failedDeliveries (beaconBroadcasterCycle fmt sendResult beacon reg).2)
              "📡 Listener disconnected\n"
            ++ ["📡 Broadcasted to "
                  ++ fmtUInt
                      (successfulDeliveries (beaconBroadcasterCycle fmt sendResult beacon reg).2)
                  ++ " listeners\n"])
    ∧ (successfulDeliveries (beaconBroadcasterCycle fmt sendResult beacon reg).2 = 0 →
        coutLines (beaconBroadcasterCycle fmt sendResult beacon reg).2
          = List.replicate
              (failedDeliveries (beaconBroadcasterCycle fmt sendResult beacon reg).2)
              "📡 Listener disconnected\n") := by
  rw [beaconBroadcasterCycle_registry, beaconBroadcasterCycle_successful,
    beaconBroadcasterCycle_failed, beaconBroadcasterCycle_coutLines, coutLines_report]
  refine ⟨rfl, ?_, ?_⟩
  · intro hpos
    have hne : reg.filter (fun h => decide (0 < sendResult h)) ≠ [] := by
      intro h0
      rw [h0] at hpos
      simp at hpos
    rw [if_pos hne]
  · intro hzero
    have he : reg.filter (fun h => decide (0 < sendResult h)) = [] :=
      List.length_eq_zero.mp hzero
    rw [he]
    simp

/-- Witness for C9 amended: registry `[3, 4, 5]`, the write on `4` fails, so two
deliveries are logged after one disconnect line; and the empty registry, where
nothing is printed. -/
theorem beaconBroadcaster_logs_deliveries_witness :
    coutLines (beaconBroadcasterCycle (fun _ => "0") (fun h => if h = 4 then -1 else 7)
        initialBeacon [3, 4, 5]).2
      = List.replicate
          (failedDeliveries (beaconBroadcasterCycle (fun _ => "0")
            (fun h => if h = 4 then -1 else 7) initialBeacon [3, 4, 5]).2)
          "📡 Listener disconnected\n"
        ++ ["📡 Broadcasted to "
              ++ fmtUInt (successfulDeliveries (beaconBroadcasterCycle (fun _ => "0")
                    (fun h => if h = 4 then -1 else 7) initialBeacon [3, 4, 5]).2)
              ++ " listeners\n"]
    ∧ coutLines (beaconBroadcasterCycle (fun _ => "0") (fun _ => 1) initialBeacon []).2
      = List.replicate
          (failedDeliveries
            (beaconBroadcasterCycle (fun _ => "0") (fun _ => 1) initialBeacon []).2)
          "📡 Listener disconnected\n" :=
  ⟨(beaconBroadcaster_logs_deliveries (fun _ => "0") (fun h => if h = 4 then -1 else 7)
      initialBeacon [3, 4, 5]).2.1
      (by rw [beaconBroadcasterCycle_successful]; decide),
   (beaconBroadcaster_logs_deliveries (fun _ => "0") (fun _ => 1) initialBeacon []).2.2
      (by rw [beaconBroadcasterCycle_successful]; decide)⟩

/-! ## Payload encoder: the fixed schema -/

theorem toDigitsCore_eq_digits :
    ∀ (fuel n : Nat) (ds : List Char), 0 < n → n < fuel →
      Nat.toDigitsCore 10 fuel n ds = (Nat.digits 10 n).reverse.map Nat.digitChar ++ ds := by
  intro fuel
  induction fuel with
  | zero => intro n ds _ h; omega
  | succ f ih =>
    intro n ds hpos hlt
    have hdig : Nat.digits 10 n = (n % 10) :: Nat.digits 10 (n / 10) :=
      Nat.digits_def' (by decide) hpos
    simp only [Nat.toDigitsCore]
    by_cases hq : n / 10 = 0
    · simp [hq, hdig]
    · have hq0 : 0 < n / 10 := Nat.pos_of_ne_zero hq
      have hqf : n / 10 < f := by omega
      simp only [hq, if_false]
      rw [ih (n / 10) _ hq0 hqf, hdig]
      simp

theorem toDigits_eq_digits (n : Nat) :
    Nat.toDigits 10 n
      = if n = 0 then ['0'] else (Nat.digits 10 n).reverse.map Nat.digitChar := by
  by_cases h : n = 0
  · subst h
    rfl
  · rw [if_neg h]
    unfold Nat.toDigits
    rw [toDigitsCore_eq_digits (n + 1) n [] (Nat.pos_of_ne_zero h) (by omega)]
    simp

theorem decimalNat_eq_toDigits (n : Nat) : decimalNat n = String.mk (Nat.toDigits 10 n) := by
  unfold decimalNat
  rw [toDigits_eq_digits]

theorem fmtUInt_eq_decimalNat (n : Nat) : fmtUInt n = decimalNat n := by
  unfold fmtUInt decimalNat
  rw [toDigits_eq_digits]

theorem fmtInt_eq_decimalInt (i : Int) : fmtInt i = decimalInt i := by
  cases i with
  | ofNat n =>
    have h : ¬ (Int.ofNat n < 0) := not_lt.mpr (Int.ofNat_nonneg n)
    simp only [fmtInt, decimalInt, h, if_false, Int.natAbs_ofNat]
    exact fmtUInt_eq_decimalNat n
  | negSucc n =>
    have h : Int.negSucc n < 0 := Int.negSucc_lt_zero n
    simp only [fmtInt, decimalInt, h, if_true, Int.natAbs_negSucc]
    rw [fmtUInt_eq_decimalNat]

theorem decimalInt_eq_toDigits (i : Int) :
    decimalInt i
      = if i < 0 then "-" ++ String.mk (Nat.toDigits 10 i.natAbs)
        else String.mk (Nat.toDigits 10 i.natAbs) := by
  rw [← fmtInt_eq_decimalInt]
  rfl

set_option maxRecDepth 100000 in
theorem createBeaconJson_eq_schemaBlock (fmt : ℚ → String) (beacon : BeaconData) :
    createBeaconJson fmt beacon = schemaBlock (beaconFields fmt beacon) := by
  apply String.ext
  simp [createBeaconJson, schemaBlock, beaconFields, quoted, String.intercalate,
    String.intercalate.go, String.data_append, ← fmtUInt_eq_decimalNat,
    ← fmtInt_eq_decimalInt]

theorem createBeaconJson_braces (fmt : ℚ → String) (beacon : BeaconData) :
    ∃ body : String, createBeaconJson fmt beacon = "\x7b\n" ++ body ++ "\x7d\n\n" := by
  refine ⟨"  \"lighthouse_id\": \"" ++ beacon.lighthouse_id ++ "\",\n"
    ++ "  \"timestamp\": " ++ fmtUInt beacon.timestamp ++ ",\n"
    ++ "  \"status\": \"" ++ beacon.status ++ "\",\n"
    ++ "  \"fastping_status\": \"" ++ beacon.fastping_status ++ "\",\n"
    ++ "  \"ping_latency_ms\": " ++ fmt beacon.ping_latency ++ ",\n"
    ++ "  \"signal_age_seconds\": " ++ fmtInt beacon.signal_age ++ ",\n"
    ++ "  \"connected_listeners\": " ++ fmtInt beacon.connected_listeners ++ ",\n"
    ++ "  \"lighthouse_type\": \"PUBLIC_INTERNET_BEACON\"\n", ?_⟩
  simp only [createBeaconJson, String.append_assoc, String.empty_append]

/-- C5: for every snapshot `createBeaconJson` returns the block of the fixed schema:
the opening-brace line, the eight key/value lines `lighthouse_id`, `timestamp`,
`status`, `fastping_status`, `ping_latency_ms`, `signal_age_seconds`,
`connected_listeners`, `lighthouse_type` in this order, each key once, the strings
quoted, the three integers as decimal numerals (base-ten digits, most significant
first, a minus sign before a negative value), the latency as the stream formatter
`fmt` renders it and the type tag constant, then the closing-brace line and an
empty line, so that the text ends with the closing brace and two newlines. -/
theorem createBeaconJson_fixed_schema (fmt : ℚ → String) (beacon : BeaconData) :
    createBeaconJson fmt beacon = schemaBlock (beaconFields fmt beacon)
    ∧ (beaconFields fmt beacon).map Prod.fst
        = ["lighthouse_id", "timestamp", "status", "fastping_status", "ping_latency_ms",
           "signal_age_seconds", "connected_listeners", "lighthouse_type"]
    ∧ ((beaconFields fmt beacon).map Prod.fst).Nodup
    ∧ (beaconFields fmt beacon).map Prod.snd
        = ["\"" ++ beacon.lighthouse_id ++ "\"",
           String.mk (Nat.toDigits 10 beacon.timestamp),
           "\"" ++ beacon.status ++ "\"",
           "\"" ++ beacon.fastping_status ++ "\"",
           fmt beacon.ping_latency,
           (if beacon.signal_age < 0 then
              "-" ++ String.mk (Nat.toDigits 10 beacon.signal_age.natAbs)
            else String.mk (Nat.toDigits 10 beacon.signal_age.natAbs)),
           (if beacon.connected_listeners < 0 then
              "-" ++ String.mk (Nat.toDigits 10 beacon.connected_listeners.natAbs)
            else String.mk (Nat.toDigits 10 beacon.connected_listeners.natAbs)),
           "\"PUBLIC_INTERNET_BEACON\""]
    ∧ (beaconFields fmt beacon).map Prod.snd
        = ["\"" ++ beacon.lighthouse_id ++ "\"",
           String.mk (if beacon.timestamp = 0 then ['0']
             else (Nat.digits 10 beacon.timestamp).reverse.map Nat.digitChar),
           "\"" ++ beacon.status ++ "\"",
           "\"" ++ beacon.fastping_status ++ "\"",
           fmt beacon.ping_latency,
           decimalInt beacon.signal_age,
           decimalInt beacon.connected_listeners,
           "\"PUBLIC_INTERNET_BEACON\""]
    ∧ (∃ body : String, createBeaconJson fmt beacon = "\x7b\n" ++ body ++ "\x7d\n\n") := by
  refine ⟨createBeaconJson_eq_schemaBlock fmt beacon, rfl, ?_, ?_, rfl,
    createBeaconJson_braces fmt beacon⟩
  · have hk : (beaconFields fmt beacon).map Prod.fst
        = ["lighthouse_id", "timestamp", "status", "fastping_status", "ping_latency_ms",
           "signal_age_seconds", "connected_listeners", "lighthouse_type"] := rfl
    rw [hk]
    decide
  · simp only [beaconFields, quoted, List.map_cons, List.map_nil, decimalNat_eq_toDigits,
      decimalInt_eq_toDigits]
    rfl

/-! ## Broadcast cycle: what each peer is handed -/

theorem bytesOf_length (s : String) : (bytesOf s).length = s.utf8ByteSize := by
  cases s with
  | mk cs =>
    unfold bytesOf
    simp only [String.utf8ByteSize_mk]
    induction cs with
    | nil => rfl
    | cons c t ih =>
      simp only [List.flatMap_cons, List.length_append, String.length_utf8EncodeChar, ih]
      rw [String.utf8Len_cons]
      omega

theorem bytesOf_append (a b : String) : bytesOf (a ++ b) = bytesOf a ++ bytesOf b := by
  unfold bytesOf
  simp [String.data_append]

theorem bytesOf_createBeaconJson_ne_nil (fmt : ℚ → String) (beacon : BeaconData) :
    bytesOf (createBeaconJson fmt beacon) ≠ [] := by
  obtain ⟨body, hbody⟩ := createBeaconJson_braces fmt beacon
  rw [hbody, bytesOf_append, bytesOf_append]
  have h : bytesOf "\x7b\n" = [123, 10] := by decide
  rw [h]
  simp

theorem delivered_whole_buffer (sock : Int) (buf : String) (ret : Int) :
    delivered (sock, buf, buf.utf8ByteSize, ret) = (bytesOf buf).take ret.toNat := by
  unfold delivered
  simp only
  rw [← bytesOf_length, List.take_length]

theorem mem_deliveredTo_cycle (fmt : ℚ → String) (sendResult : Int → Int)
    (beacon : BeaconData) (reg : List Int) (h : Int) (block : List UInt8) :
    block ∈ deliveredTo (beaconBroadcasterCycle fmt sendResult beacon reg).2 h
      ↔ h ∈ reg
        ∧ block = (bytesOf (createBeaconJson fmt beacon)).take (sendResult h).toNat := by
  unfold deliveredTo
  rw [beaconBroadcasterCycle_sendCalls]
  simp only [List.mem_map, List.mem_filter, decide_eq_true_eq]
  constructor
  · rintro ⟨c, ⟨⟨h2, hmem, rfl⟩, hc⟩, rfl⟩
    simp only at hc
    subst hc
    exact ⟨hmem, delivered_whole_buffer _ _ _⟩
  · rintro ⟨hmem, rfl⟩
    exact ⟨_, ⟨⟨h, hmem, rfl⟩, rfl⟩, delivered_whole_buffer _ _ _⟩

/-- C2 as stated fails: with one registered socket `4` whose `send` returns 1, the
socket stays in the registry, yet the only bytes handed to it are the single byte
of the opening brace, not the whole encoded block. -/
theorem beaconBroadcaster_payload_counterexample :
    4 ∈ (beaconBroadcasterCycle (fun _ => "0") (fun _ => 1) initialBeacon [4]).1
    ∧ deliveredTo (beaconBroadcasterCycle (fun _ => "0") (fun _ => 1) initialBeacon [4]).2 4
        = [[123]]
    ∧ [123] ≠ bytesOf (createBeaconJson (fun _ => "0") initialBeacon) := by
  refine ⟨?_, ?_, ?_⟩
  · rw [beaconBroadcasterCycle_registry]
    decide
  · unfold deliveredTo
    rw [beaconBroadcasterCycle_sendCalls]
    simp only [List.map_cons, List.map_nil, List.filter_cons, decide_True, if_true,
      List.filter_nil, delivered_whole_buffer]
    obtain ⟨body, hbody⟩ := createBeaconJson_braces (fun _ => "0") initialBeacon
    rw [hbody, bytesOf_append, bytesOf_append]
    have h : bytesOf "\x7b\n" = [123, 10] := by decide
    rw [h]
    rfl
  · obtain ⟨body, hbody⟩ := createBeaconJson_braces (fun _ => "0") initialBeacon
    rw [hbody, bytesOf_append, bytesOf_append]
    have h : bytesOf "\x7b\n" = [123, 10] := by decide
    rw [h]
    simp

/-- C2 amended: for every registry, every `send` of one broadcast cycle is called with
the same buffer, the whole output of `createBeaconJson` on the one snapshot read at
the start of the cycle, and with its full byte length; each handle that remains in
the registry had a positive return value `r` and was handed the first `r` bytes of
that output, a non-empty initial segment, which is the whole output when `r` is at
least the payload length and a shorter text when `r` is smaller. -/
theorem beaconBroadcaster_same_payload (fmt : ℚ → String) (sendResult : Int → Int)
    (beacon : BeaconData) (reg : List Int) :
    sendCalls (beaconBroadcasterCycle fmt sendResult beacon reg).2
      = reg.map (fun h => (h, createBeaconJson fmt beacon,
          (createBeaconJson fmt beacon).utf8ByteSize, sendResult h))
    ∧ (∀ h ∈ (beaconBroadcasterCycle fmt sendResult beacon reg).1,
        0 < sendResult h
        ∧ deliveredTo (beaconBroadcasterCycle fmt sendResult beacon reg).2 h ≠ []
        ∧ ∀ block ∈ deliveredTo (beaconBroadcasterCycle fmt sendResult beacon reg).2 h,
            block = (bytesOf (createBeaconJson fmt beacon)).take (sendResult h).toNat
            ∧ block ≠ []
            ∧ (((createBeaconJson fmt beacon).utf8ByteSize : Int) ≤ sendResult h →
                block = bytesOf (createBeaconJson fmt beacon))
            ∧ (sendResult h < ((createBeaconJson fmt beacon).utf8ByteSize : Int) →
                block ≠ bytesOf (createBeaconJson fmt beacon))) := by
  refine ⟨beaconBroadcasterCycle_sendCalls fmt sendResult beacon reg, ?_⟩
  intro h hkept
  rw [beaconBroadcasterCycle_registry, List.mem_filter] at hkept
  obtain ⟨hmem, hpos⟩ := hkept
  have hpos : 0 < sendResult h := by simpa using hpos
  refine ⟨hpos, ?_, ?_⟩
  · intro hnil
    have hin := (mem_deliveredTo_cycle fmt sendResult beacon reg h _).mpr ⟨hmem, rfl⟩
    rw [hnil] at hin
    simp at hin
  · intro block hblock
    obtain ⟨_, hb⟩ := (mem_deliveredTo_cycle fmt sendResult beacon reg h block).mp hblock
    have hne := bytesOf_createBeaconJson_ne_nil fmt beacon
    have hlen := bytesOf_length (createBeaconJson fmt beacon)
    have hnat : 0 < (sendResult h).toNat := by omega
    refine ⟨hb, ?_, ?_, ?_⟩
    · intro h0
      rw [hb] at h0
      have hl := congrArg List.length h0
      rw [List.length_take, List.length_nil] at hl
      have : 0 < (bytesOf (createBeaconJson fmt beacon)).length :=
        List.length_pos.mpr hne
      omega
    · intro hall
      rw [hb]
      apply List.take_of_length_le
      omega
    · intro hless heq
      rw [hb] at heq
      have hl := congrArg List.length heq
      rw [List.length_take] at hl
      omega

/-- Witness for C2 amended: registry `[3, 4]` where `send` returns 1 on both sockets;
socket `3` remains registered having been handed the first byte of the block. -/
theorem beaconBroadcaster_same_payload_witness :
    0 < (fun _ => (1 : Int)) (3 : Int)
    ∧ deliveredTo (beaconBroadcasterCycle (fun _ => "0") (fun _ => 1) initialBeacon [3, 4]).2 3
        ≠ []
    ∧ ∀ block ∈
        deliveredTo (beaconBroadcasterCycle (fun _ => "0") (fun _ => 1) initialBeacon [3, 4]).2 3,
          block = (bytesOf (createBeaconJson (fun _ => "0") initialBeacon)).take
                    ((fun _ => (1 : Int)) (3 : Int)).toNat
          ∧ block ≠ []
          ∧ (((createBeaconJson (fun _ => "0") initialBeacon).utf8ByteSize : Int)
                ≤ (fun _ => (1 : Int)) (3 : Int) →
              block = bytesOf (createBeaconJson (fun _ => "0") initialBeacon))
          ∧ ((fun _ => (1 : Int)) (3 : Int)
                < ((createBeaconJson (fun _ => "0") initialBeacon).utf8ByteSize : Int) →
              block ≠ bytesOf (createBeaconJson (fun _ => "0") initialBeacon)) :=
  (beaconBroadcaster_same_payload (fun _ => "0") (fun _ => 1) initialBeacon [3, 4]).2 3
    (by rw [beaconBroadcasterCycle_registry]; decide)

/-! ## Registry access and `listeners_mutex` -/

theorem guardedFrom_visits (sendResult : Int → Int) (json : String) (rest : List Event)
    (hrest : ∀ registered, guardedFrom true registered rest = true) :
    ∀ (l registered : List Int),
      guardedFrom true registered (l.flatMap (visit sendResult json) ++ rest) = true := by
  intro l
  induction l with
  | nil =>
    intro registered
    simpa using hrest registered
  | cons h t ih =>
    intro registered
    by_cases hs : sendResult h ≤ 0
    · simp [List.flatMap_cons, visit, hs, guardedFrom, ih]
    · simp [List.flatMap_cons, visit, hs, guardedFrom, ih]

theorem beaconBroadcasterCycle_guarded (fmt : ℚ → String) (sendResult : Int → Int)
    (beacon : BeaconData) (reg : List Int) :
    guarded reg (beaconBroadcasterCycle fmt sendResult beacon reg).2 = true := by
  rw [beaconBroadcasterCycle_trace]
  have hshape : ∀ (mid tail1 tail2 : List Event),
      [Event.lock Mutex.beacon_mutex, Event.beaconRead, Event.unlock Mutex.beacon_mutex,
        Event.lock Mutex.listeners_mutex, Event.registryRead]
        ++ (mid ++ [Event.registryRead]) ++ tail1 ++ tail2
      = Event.lock Mutex.beacon_mutex :: Event.beaconRead :: Event.unlock Mutex.beacon_mutex
          :: Event.lock Mutex.listeners_mutex :: Event.registryRead
          :: (mid ++ (Event.registryRead :: (tail1 ++ tail2))) := by
    intro mid tail1 tail2
    simp
  have hhead : ∀ (registered : List Int) (tail : List Event),
      guarded registered
        (Event.lock Mutex.beacon_mutex :: Event.beaconRead :: Event.unlock Mutex.beacon_mutex
          :: Event.lock Mutex.listeners_mutex :: Event.registryRead :: tail)
      = guardedFrom true registered tail := by
    intro registered tail
    rfl
  rw [hshape, hhead]
  apply guardedFrom_visits
  intro registered
  unfold report
  split <;> simp [guardedFrom]

theorem fastpingMonitor_reads_size_unguarded :
    guarded [4] (fastpingMonitorCycle (some 0) 1700000000 [4] initialBeacon).2 = false
    ∧ Event.registryRead ∈ (fastpingMonitorCycle (some 0) 1700000000 [4] initialBeacon).2
    ∧ Event.lock Mutex.listeners_mutex
        ∉ (fastpingMonitorCycle (some 0) 1700000000 [4] initialBeacon).2 := by
  refine ⟨by decide, by decide, by decide⟩

/-- C6 as stated fails: the acceptor registers socket `5` under `listeners_mutex`,
releases the mutex and only then sends the welcome text on that socket, so a write
to a registered handle's socket happens without the mutex. -/
theorem registry_discipline_counterexample :
    guarded [4] (connectionHandlerCycle 5 "203.0.113.7" 90 [4]).2 = false
    ∧ (connectionHandlerCycle 5 "203.0.113.7" 90 [4]).1 = [4, 5]
    ∧ (connectionHandlerCycle 5 "203.0.113.7" 90 [4]).2.drop 2
        = [Event.lock Mutex.listeners_mutex, Event.registryPush 5,
           Event.unlock Mutex.listeners_mutex,
           Event.send 5
             ("🏰 Welcome to PUBLIC LIGHTHOUSE BEACON!\n"
               ++ "📡 You are now receiving live lighthouse data\n\n")
             ("🏰 Welcome to PUBLIC LIGHTHOUSE BEACON!\n"
               ++ "📡 You are now receiving live lighthouse data\n\n").utf8ByteSize
             SendFlags.zero 90] := by
  refine ⟨by decide, by decide, by decide⟩

/-- C6 amended: in every broadcast cycle each registry access (iteration, `erase`,
`empty`, `size`) and each write to a registered handle's socket happens while
`listeners_mutex` is held; in every acceptor cycle the `push_back` into the
registry happens while `listeners_mutex` is held, and the welcome write on the
socket just registered is the action that follows the release of the mutex. -/
theorem registry_discipline (fmt : ℚ → String) (sendResult : Int → Int)
    (beacon : BeaconData) (reg : List Int) (acceptRet : Int) (client_ip : String)
    (welcomeRet : Int) :
    guarded reg (beaconBroadcasterCycle fmt sendResult beacon reg).2 = true
    ∧ registryGuarded reg (connectionHandlerCycle acceptRet client_ip welcomeRet reg).2 = true
    ∧ (0 ≤ acceptRet →
        (connectionHandlerCycle acceptRet client_ip welcomeRet reg).1 = reg ++ [acceptRet]
        ∧ (connectionHandlerCycle acceptRet client_ip welcomeRet reg).2.drop 2
            = [Event.lock Mutex.listeners_mutex, Event.registryPush acceptRet,
               Event.unlock Mutex.listeners_mutex,
               Event.send acceptRet
                 ("🏰 Welcome to PUBLIC LIGHTHOUSE BEACON!\n"
                   ++ "📡 You are now receiving live lighthouse data\n\n")
                 ("🏰 Welcome to PUBLIC LIGHTHOUSE BEACON!\n"
                   ++ "📡 You are now receiving live lighthouse data\n\n").utf8ByteSize
                 SendFlags.zero welcomeRet]) := by
  refine ⟨beaconBroadcasterCycle_guarded fmt sendResult beacon reg, ?_, ?_⟩
  · by_cases h : 0 ≤ acceptRet
    · simp [connectionHandlerCycle, h, registryGuarded, guarded, guardedFrom]
    · simp [connectionHandlerCycle, h, registryGuarded, guarded, guardedFrom]
  · intro h
    simp [connectionHandlerCycle, h]

/-- Witness for C6 amended: `accept` returns socket `5` while socket `4` is registered. -/
theorem registry_discipline_witness :
    (connectionHandlerCycle 5 "203.0.113.7" 90 [4]).1 = [4] ++ [5]
    ∧ (connectionHandlerCycle 5 "203.0.113.7" 90 [4]).2.drop 2
        = [Event.lock Mutex.listeners_mutex, Event.registryPush 5,
           Event.unlock Mutex.listeners_mutex,
           Event.send 5
             ("🏰 Welcome to PUBLIC LIGHTHOUSE BEACON!\n"
               ++ "📡 You are now receiving live lighthouse data\n\n")
             ("🏰 Welcome to PUBLIC LIGHTHOUSE BEACON!\n"
               ++ "📡 You are now receiving live lighthouse data\n\n").utf8ByteSize
             SendFlags.zero 90] :=
  (registry_discipline (fun _ => "0") (fun _ => 1) initialBeacon [4] 5 "203.0.113.7" 90).2.2
    (by decide)

end Lighthouse
